import Mathlib

/-!
# Verification of the colino-backend session-brokered OAuth handoff

A shallow embedding of the serverless OAuth broker in this repository:
the DynamoDB token-storage wrappers (`src/shared/token_storage.py`),
and the four HTTP handlers `auth_initiate`, `auth_callback`, `auth_poll`
and `auth_refresh` (`src/lambdas/*.py`).

Python dictionaries holding JSON data are modelled as association lists
of `String × JVal`; keys that the code may leave absent are modelled with
`Option`.  Epoch time is an explicit `Int` parameter `now`.  Calls into
the external world (DynamoDB, Google's token endpoint) are modelled by
explicit outcome parameters: each handler is a pure function of its
request and of the outcome the external collaborator produced.
-/

set_option autoImplicit false

namespace Colino

/-- A JSON scalar as it appears in the handlers' response bodies:
a string, an integer, or `null` (Python `None` inside a dict). -/
inductive JVal where
  | s (v : String)
  | i (v : Int)
  | null
  deriving DecidableEq, Repr

/-- An API Gateway response as built by
`shared/response_utils.create_response`: a status code and a JSON body
(headers are constant in the source and carry no claim content). -/
structure Response where
  statusCode : Nat
  body : List (String × JVal)
  deriving DecidableEq, Repr

/-- `shared/response_utils.create_response`. -/
def create_response (statusCode : Nat) (body : List (String × JVal)) : Response :=
  { statusCode := statusCode, body := body }

/-- `shared/response_utils.create_error_response`: wraps the message as
`{"error": message}`. -/
def create_error_response (statusCode : Nat) (message : String) : Response :=
  create_response statusCode [("error", JVal.s message)]

/-- Look a key up in a JSON body (Python `body.get(k)`). -/
def lookupKey (body : List (String × JVal)) (k : String) : Option JVal :=
  (body.find? (fun p => p.1 == k)).map (fun p => p.2)

/-- A DynamoDB item of the OAuth-sessions table, restricted to the keys
the code reads and writes.  Every field except the `session_id` key
itself may be absent (`save_oauth_tokens` removes `None` values before
writing, and the Poll handler reads every field with `.get`).  The item
returned by DynamoDB always contains its `session_id` key, so a fetched
item is never the empty (falsy) dict. -/
structure StoredItem where
  access_token : Option String
  refresh_token : Option String
  token_type : Option String
  expires_in : Option Int
  expires_at : Option Int
  scope : Option String
  status : Option String
  created_at : Option Int
  ttl : Option Int
  deriving DecidableEq, Repr

/-- The `tokens` dict argument of `save_oauth_tokens`: the keys the
function reads, each possibly absent. -/
structure TokenDict where
  access_token : Option String := none
  refresh_token : Option String := none
  token_type : Option String := none
  expires_at : Option Int := none
  scope : Option String := none
  status : Option String := none
  deriving DecidableEq, Repr

/-- The Session Store's contents: one optional item per session id. -/
def Store : Type := String → Option StoredItem

/-- The empty store. -/
def emptyStore : Store := fun _ => none

/-- `put_item`: full overwrite of the item under a key. -/
def store_put (st : Store) (sid : String) (it : StoredItem) : Store :=
  fun k => if k = sid then some it else st k

/-- `delete_item`: remove the item under a key. -/
def store_del (st : Store) (sid : String) : Store :=
  fun k => if k = sid then none else st k

/-- `get_item` of the Session Store, including its TTL contract
(modelled from the spec's collaborator contract for the out-of-scope
store: the store silently treats expired records as absent; DynamoDB's
native per-item expiry).  An item whose `ttl` lies at or before `now`
is reported absent; an item without a `ttl` attribute never expires. -/
def dynamo_get_item (st : Store) (now : Int) (sid : String) : Option StoredItem :=
  match st sid with
  | none => none
  | some it =>
    match it.ttl with
    | some t => if t ≤ now then none else some it
    | none => some it

/-- Outcome of a call into the storage layer: either it works, or some
exception is raised (a boto3 error, or the `ValueError` raised by
`get_oauth_sessions_table` when `OAUTH_SESSIONS_TABLE` is unset). -/
inductive DynamoOutcome where
  | ok
  | exc (msg : String)
  deriving DecidableEq, Repr

/-- The item built by `save_oauth_tokens` before `put_item`
(`token_storage.py` lines 57-72): `token_type` defaults to `"Bearer"`,
`status` to `"completed"`, `created_at` is the current time and
`ttl = now + expires_in`; `None` values are removed, which the `Option`
fields express. -/
def save_item (now : Int) (tokens : TokenDict) (expires_in : Int) : StoredItem :=
  { access_token := tokens.access_token
    refresh_token := tokens.refresh_token
    token_type := some (tokens.token_type.getD "Bearer")
    expires_in := some expires_in
    expires_at := tokens.expires_at
    scope := tokens.scope
    status := some (tokens.status.getD "completed")
    created_at := some now
    ttl := some (now + expires_in) }

/-- `token_storage.save_oauth_tokens`: writes the item and returns
`True`, or catches any storage exception and returns `False` with the
store untouched. -/
def save_oauth_tokens (outcome : DynamoOutcome) (now : Int) (st : Store)
    (session_id : String) (tokens : TokenDict) (expires_in : Int) : Bool × Store :=
  match outcome with
  | DynamoOutcome.ok => (true, store_put st session_id (save_item now tokens expires_in))
  | DynamoOutcome.exc _ => (false, st)

/-- `token_storage.get_oauth_tokens`: returns the item (or `None` when
absent), catching any storage exception as `None`. -/
def get_oauth_tokens (outcome : DynamoOutcome) (now : Int) (st : Store)
    (session_id : String) : Option StoredItem :=
  match outcome with
  | DynamoOutcome.ok => dynamo_get_item st now session_id
  | DynamoOutcome.exc _ => none

/-- `token_storage.delete_oauth_tokens`: deletes and returns `True`,
or catches any storage exception and returns `False`. -/
def delete_oauth_tokens (outcome : DynamoOutcome) (st : Store)
    (session_id : String) : Bool × Store :=
  match outcome with
  | DynamoOutcome.ok => (true, store_del st session_id)
  | DynamoOutcome.exc _ => (false, st)

/-- The raw Poll response dict (`auth_poll.py` lines 54-61) before the
`None`-filter: the six allow-listed keys, with `null` standing for a
missing value and `token_type` defaulting to `"Bearer"`. -/
def pollBodyRaw (td : StoredItem) : List (String × JVal) :=
  [("access_token", (td.access_token.map JVal.s).getD JVal.null),
   ("refresh_token", (td.refresh_token.map JVal.s).getD JVal.null),
   ("token_type", JVal.s (td.token_type.getD "Bearer")),
   ("expires_in", (td.expires_in.map JVal.i).getD JVal.null),
   ("expires_at", (td.expires_at.map JVal.i).getD JVal.null),
   ("scope", (td.scope.map JVal.s).getD JVal.null)]

/-- The `None`-filter of `auth_poll.py` line 64. -/
def removeNulls (body : List (String × JVal)) : List (String × JVal) :=
  body.filter (fun p => p.2 != JVal.null)

/-- The sanitized Poll payload: raw dict with `None` values removed. -/
def pollBody (td : StoredItem) : List (String × JVal) :=
  removeNulls (pollBodyRaw td)

/-- The 202 "pending" response of `auth_poll.py`. -/
def pending_response : Response :=
  create_response 202
    [("status", JVal.s "pending"),
     ("message", JVal.s "Authentication in progress. Please complete the OAuth flow in your browser.")]

/-- `lambdas/auth_poll.lambda_handler`.  `session_id?` is
`pathParameters.get("session_id")`; Python truthiness makes the empty
string count as missing.  `getOutcome` is the storage layer's outcome
for the embedded `get_oauth_tokens` call. -/
def auth_poll_handler (session_id? : Option String) (getOutcome : DynamoOutcome)
    (now : Int) (st : Store) : Response :=
  match session_id? with
  | none => create_error_response 400 "Missing session_id parameter"
  | some sid =>
    if sid = "" then create_error_response 400 "Missing session_id parameter"
    else
      match get_oauth_tokens getOutcome now st sid with
      | none => create_error_response 404 "Session not found or expired"
      | some td =>
        if td.status = some "pending" then pending_response
        else
          match td.access_token with
          | none => pending_response
          | some a =>
            if a = "" then pending_response
            else create_response 200 (pollBody td)

/-- The YouTube API scopes of `shared/config.py`. -/
def SCOPES : List String :=
  ["https://www.googleapis.com/auth/youtube.readonly",
   "https://www.googleapis.com/auth/youtube.force-ssl"]

/-- The placeholder dict written by `auth_initiate.py` lines 59-62
(`{"status": "pending", "created_at": None}`; `save_oauth_tokens`
never reads `created_at`, and `None` values are dropped). -/
def pendingPlaceholder : TokenDict :=
  { status := some "pending" }

/-- `lambdas/auth_initiate.lambda_handler`.
`host?` is `headers.get("Host") or headers.get("host")` under Python
truthiness (so an empty string counts as missing and raises the
`ValueError`); `session_id` is the fresh UUID the code draws;
`authorization_url` is the URL the external `Flow` produced;
`saveOutcome` is the storage layer's outcome for the placeholder write,
whose boolean result the code discards. -/
def auth_initiate_handler (host? : Option String) (session_id : String)
    (authorization_url : String) (saveOutcome : DynamoOutcome)
    (now : Int) (st : Store) : Response × Store :=
  let fail : Response :=
    create_response 500
      [("error", JVal.s "Failed to generate authorization URL"),
       ("message", JVal.s "Unable to determine API Gateway host")]
  match host? with
  | none => (fail, st)
  | some h =>
    if h = "" then (fail, st)
    else
      let redirect_uri := "https://" ++ h ++ "/Prod/callback"
      let saved := save_oauth_tokens saveOutcome now st session_id pendingPlaceholder 3600
      (create_response 200
         [("authorization_url", JVal.s authorization_url),
          ("session_id", JVal.s session_id),
          ("redirect_uri", JVal.s redirect_uri)],
       saved.2)

/-- The query parameters of the Callback request, restricted to the keys
the code reads; `extra` carries any further parameters so that the
dict's Python truthiness (`if not query_params`) is representable. -/
structure QueryParams where
  code : Option String := none
  state : Option String := none
  error : Option String := none
  error_description : Option String := none
  extra : List (String × String) := []
  deriving DecidableEq, Repr

/-- Python truthiness of the query-parameter dict: falsy iff empty. -/
def QueryParams.isEmptyDict (p : QueryParams) : Bool :=
  p.code.isNone && p.state.isNone && p.error.isNone
    && p.error_description.isNone && p.extra.isEmpty

/-- The credentials object the external `Flow.fetch_token` produced:
the access token, an optional refresh token, and the optional absolute
expiry instant (epoch seconds). -/
structure Credentials where
  token : String
  refresh_token : Option String
  expiry : Option Int
  deriving DecidableEq, Repr

/-- Outcome of the external token exchange (`flow.fetch_token`): the
credentials, or an exception caught by the handler's outer `except`. -/
inductive ExchangeOutcome where
  | ok (cred : Credentials)
  | exc (msg : String)
  deriving DecidableEq, Repr

/-- Result of the Callback handler: an error response, a 200 JSON
response, or a 200 HTML page embedding the CLI token dict. -/
inductive CbResult where
  | err (statusCode : Nat) (msg : String)
  | jsonOk (body : List (String × JVal))
  | htmlOk (tokenData : List (String × JVal))
  deriving DecidableEq, Repr

/-- The expiry pair of `auth_callback.py` lines 77-91: with a
provider-supplied absolute expiry, `expires_in` is the seconds until
it; otherwise the fallback synthesizes a one-hour window from the
current time. -/
def callback_expiry (cred : Credentials) (now : Int) : Int × Int :=
  match cred.expiry with
  | some t => (t - now, t)
  | none => (3600, now + 3600)

/-- The `cli_token_data` dict of `auth_callback.py` lines 102-109,
embedded in the HTML success page (a missing refresh token is dumped
as JSON `null`, not removed). -/
def callback_token_data (cred : Credentials) (now : Int) : List (String × JVal) :=
  let e := callback_expiry cred now
  [("access_token", JVal.s cred.token),
   ("refresh_token", (cred.refresh_token.map JVal.s).getD JVal.null),
   ("expires_in", JVal.i e.1),
   ("expires_at", JVal.i e.2),
   ("token_type", JVal.s "Bearer"),
   ("scope", JVal.s (String.intercalate " " SCOPES))]

/-- The `response_data` dict of `auth_callback.py` lines 95-99,
returned on the JSON-accepting path. -/
def callback_response_data (cred : Credentials) : List (String × JVal) :=
  [("message", JVal.s "Authentication successful"),
   ("access_token", JVal.s cred.token),
   ("refresh_token", (cred.refresh_token.map JVal.s).getD JVal.null)]

/-- The provider-error message of `auth_callback.py` lines 37-41. -/
def callback_oauth_error_msg (e : String) (desc? : Option String) : String :=
  match desc? with
  | some d => "OAuth error: " ++ e ++ " - " ++ d
  | none => "OAuth error: " ++ e

/-- `lambdas/auth_callback.lambda_handler`.  `params?` is
`event.get("queryStringParameters", {})` (`none` covers both an absent
key and an explicit `None`); `host?` and the empty-string checks follow
Python truthiness; `acceptJson` is whether the `Accept` header contains
`application/json`.  The handler never writes to the Session Store:
every branch returns `st` unchanged. -/
def auth_callback_handler (params? : Option QueryParams) (host? : Option String)
    (acceptJson : Bool) (exchange : ExchangeOutcome) (now : Int) (st : Store) :
    CbResult × Store :=
  match params? with
  | none => (CbResult.err 400 "Missing query parameters", st)
  | some p =>
    if p.isEmptyDict then (CbResult.err 400 "Missing query parameters", st)
    else
      match p.error with
      | some e => (CbResult.err 400 (callback_oauth_error_msg e p.error_description), st)
      | none =>
        match p.code with
        | none => (CbResult.err 400 "Missing authorization code", st)
        | some c =>
          if c = "" then (CbResult.err 400 "Missing authorization code", st)
          else
            match host? with
            | none => (CbResult.err 500 "Unable to determine API Gateway host", st)
            | some h =>
              if h = "" then (CbResult.err 500 "Unable to determine API Gateway host", st)
              else
                match exchange with
                | ExchangeOutcome.exc m =>
                  (CbResult.err 500 ("Internal server error: " ++ m), st)
                | ExchangeOutcome.ok cred =>
                  if acceptJson then (CbResult.jsonOk (callback_response_data cred), st)
                  else (CbResult.htmlOk (callback_token_data cred now), st)

/-- The parsed request body of the Refresh handler:
absent/empty (falsy), invalid JSON, or a JSON object whose
`refresh_token` key may be absent. -/
inductive ReqBody where
  | missing
  | invalid
  | parsed (refresh_token : Option String)
  deriving DecidableEq, Repr

/-- The provider token endpoint's response body as the handler probes
it: `bad` when `response.json()` fails (or the body is not a JSON
object, so that `.get` raises — both are swallowed by the bare
`except`); otherwise the object's relevant keys. -/
inductive PBody where
  | bad
  | obj (access_token : Option String) (refresh_token : Option String)
      (expires_in : Option Int) (token_type : Option String)
      (scope : Option String) (error : Option String)
      (error_description : Option String)
  deriving DecidableEq, Repr

/-- The error message chosen by `auth_refresh.py` lines 72-76 for a
non-200 provider response: `error_description`, else `error`, else the
fixed `"Token refresh failed"` when the body is a JSON object, and the
status-coded generic message only when the body cannot be probed. -/
def refresh_error_msg (status : Nat) (pb : PBody) : String :=
  match pb with
  | PBody.bad => "Token refresh failed with status " ++ toString status
  | PBody.obj _ _ _ _ _ err desc =>
    desc.getD (err.getD "Token refresh failed")

/-- The success body of `auth_refresh.py` lines 89-100: base fields
with `expires_in` defaulted to 3600 and `expires_at = now + expires_in`,
plus `refresh_token` appended exactly when the provider returned one. -/
def refresh_success_body (access_token : String) (refresh_token? : Option String)
    (expires_in? : Option Int) (token_type? scope? : Option String)
    (now : Int) : List (String × JVal) :=
  let expires_in := expires_in?.getD 3600
  let base :=
    [("message", JVal.s "Token refreshed successfully"),
     ("access_token", JVal.s access_token),
     ("expires_in", JVal.i expires_in),
     ("expires_at", JVal.i (now + expires_in)),
     ("token_type", JVal.s (token_type?.getD "Bearer")),
     ("scope", JVal.s (scope?.getD ""))]
  match refresh_token? with
  | some r => base ++ [("refresh_token", JVal.s r)]
  | none => base

/-- `lambdas/auth_refresh.lambda_handler`.  `body` is the parsed
request body, `pstatus`/`pbody` the provider's HTTP status and body
(Python truthiness makes an empty-string refresh token count as
missing; a 200 provider response lacking `access_token` raises a
`KeyError` caught by the outer handler as a 500). -/
def auth_refresh_handler (body : ReqBody) (pstatus : Nat) (pbody : PBody)
    (now : Int) : Response :=
  match body with
  | ReqBody.missing => create_error_response 400 "Missing request body"
  | ReqBody.invalid => create_error_response 400 "Invalid JSON in request body"
  | ReqBody.parsed rt? =>
    match rt? with
    | none => create_error_response 400 "Missing refresh_token in request body"
    | some rt =>
      if rt = "" then create_error_response 400 "Missing refresh_token in request body"
      else if pstatus ≠ 200 then
        create_error_response 400 (refresh_error_msg pstatus pbody)
      else
        match pbody with
        | PBody.bad => create_error_response 500 "Internal server error: response body is not valid JSON"
        | PBody.obj at? rt2? ei? tt? sc? _ _ =>
          match at? with
          | none => create_error_response 500 "Internal server error: 'access_token'"
          | some a => create_response 200 (refresh_success_body a rt2? ei? tt? sc? now)

/-! ## Theorems -/

/-- C2: For every Poll invocation carrying a session_id: when the store
holds no record (absent or expired) the response is a 404 with
"Session not found or expired"; when the record's status is pending, or
the record lacks an access_token, the response is a 202 with status
"pending"; otherwise the response is 200 with the token payload. -/
theorem auth_poll_classification (sid : String) (now : Int) (st : Store)
    (hsid : sid ≠ "") :
    (dynamo_get_item st now sid = none →
      auth_poll_handler (some sid) DynamoOutcome.ok now st
        = create_error_response 404 "Session not found or expired")
    ∧ (∀ td, dynamo_get_item st now sid = some td →
        ((td.status = some "pending" ∨ td.access_token = none ∨ td.access_token = some "") →
          auth_poll_handler (some sid) DynamoOutcome.ok now st = pending_response)
        ∧ (td.status ≠ some "pending" → ∀ a, td.access_token = some a → a ≠ "" →
          auth_poll_handler (some sid) DynamoOutcome.ok now st
            = create_response 200 (pollBody td))) := by
  refine ⟨fun h => by simp [auth_poll_handler, get_oauth_tokens, hsid, h], ?_⟩
  intro td h
  constructor
  · rintro (hp | ha | ha) <;>
      by_cases hs : td.status = some "pending" <;>
      simp_all [auth_poll_handler, get_oauth_tokens, hsid, h]
  · intro hs a ha hne
    simp [auth_poll_handler, get_oauth_tokens, hsid, h, hs, ha, hne]

/-- Witness for C2: on the empty store a poll of "abc" is 404; after the
PENDING placeholder is written it is the 202 pending response; after a
READY record is written it is 200 with the sanitized payload. -/
theorem auth_poll_classification_witness :
    auth_poll_handler (some "abc") DynamoOutcome.ok 0 emptyStore
      = create_error_response 404 "Session not found or expired"
    ∧ auth_poll_handler (some "abc") DynamoOutcome.ok 0
        (store_put emptyStore "abc" (save_item 0 pendingPlaceholder 3600))
      = pending_response
    ∧ auth_poll_handler (some "abc") DynamoOutcome.ok 0
        (store_put emptyStore "abc" (save_item 0 { access_token := some "tok" } 7200))
      = create_response 200 (pollBody (save_item 0 { access_token := some "tok" } 7200)) := by
  refine ⟨(auth_poll_classification "abc" 0 emptyStore (by decide)).1 (by rfl),
    ((auth_poll_classification "abc" 0 _ (by decide)).2 _ (by rfl)).1 (Or.inl rfl),
    ((auth_poll_classification "abc" 0 _ (by decide)).2 _ (by rfl)).2 (by decide) "tok" rfl
      (by decide)⟩

/-- C3: A Poll of a session whose stored record's ttl lies in the past
behaves exactly as if the record were absent: the store reports it
absent, the handler's result equals the result on a store without the
record, and the response is the 404 not-found error. -/
theorem auth_poll_ttl_expired (sid : String) (now t : Int) (st : Store)
    (it : StoredItem) (hsid : sid ≠ "") (hst : st sid = some it)
    (httl : it.ttl = some t) (hexp : t ≤ now) :
    dynamo_get_item st now sid = none
    ∧ auth_poll_handler (some sid) DynamoOutcome.ok now st
        = auth_poll_handler (some sid) DynamoOutcome.ok now (store_del st sid)
    ∧ auth_poll_handler (some sid) DynamoOutcome.ok now st
        = create_error_response 404 "Session not found or expired" := by
  have hget : dynamo_get_item st now sid = none := by
    simp [dynamo_get_item, hst, httl, hexp]
  have hget2 : dynamo_get_item (store_del st sid) now sid = none := by
    simp [dynamo_get_item, store_del]
  exact ⟨hget,
    by simp [auth_poll_handler, get_oauth_tokens, hsid, hget, hget2],
    by simp [auth_poll_handler, get_oauth_tokens, hsid, hget]⟩

/-- Witness for C3, the spec's own boundary example: a PENDING
placeholder for "abc" written at time 0 with ttl 0+5 and polled at time
10 yields the 404 not-found response. -/
theorem auth_poll_ttl_expired_witness :
    dynamo_get_item (store_put emptyStore "abc" (save_item 0 pendingPlaceholder 5)) 10 "abc" = none
    ∧ auth_poll_handler (some "abc") DynamoOutcome.ok 10
        (store_put emptyStore "abc" (save_item 0 pendingPlaceholder 5))
      = create_error_response 404 "Session not found or expired" := by
  have h := auth_poll_ttl_expired "abc" 10 5
    (store_put emptyStore "abc" (save_item 0 pendingPlaceholder 5))
    (save_item 0 pendingPlaceholder 5) (by decide) (by rfl) rfl (by decide)
  exact ⟨h.1, h.2.2⟩

/-- The allow-list of externally visible Poll payload fields. -/
def allowedFields : List String :=
  ["access_token", "refresh_token", "token_type", "expires_in", "expires_at", "scope"]

/-- C5: For every record served as READY, the Poll response body is the
sanitized payload: a 200 Poll response carries exactly `pollBody` of the
fetched record; every key of it is allow-listed and no value is null;
the internal bookkeeping fields never appear; and every allow-listed
field with no value in the record is omitted entirely. -/
theorem auth_poll_payload_sanitized (sid : String) (now : Int) (st : Store)
    (hsid : sid ≠ "") :
    (∀ td, dynamo_get_item st now sid = some td →
      (auth_poll_handler (some sid) DynamoOutcome.ok now st).statusCode = 200 →
      (auth_poll_handler (some sid) DynamoOutcome.ok now st).body = pollBody td)
    ∧ (∀ td k v, (k, v) ∈ pollBody td → k ∈ allowedFields ∧ v ≠ JVal.null)
    ∧ (∀ td v, ("status", v) ∉ pollBody td ∧ ("ttl", v) ∉ pollBody td
        ∧ ("created_at", v) ∉ pollBody td ∧ ("session_id", v) ∉ pollBody td)
    ∧ (∀ td, td.access_token = none → ∀ v, ("access_token", v) ∉ pollBody td)
    ∧ (∀ td, td.refresh_token = none → ∀ v, ("refresh_token", v) ∉ pollBody td)
    ∧ (∀ td, td.expires_in = none → ∀ v, ("expires_in", v) ∉ pollBody td)
    ∧ (∀ td, td.expires_at = none → ∀ v, ("expires_at", v) ∉ pollBody td)
    ∧ (∀ td, td.scope = none → ∀ v, ("scope", v) ∉ pollBody td) := by
  refine ⟨?_, ?_, ?_, ?_, ?_, ?_, ?_, ?_⟩
  · intro td h h200
    by_cases hs : td.status = some "pending"
    · simp [auth_poll_handler, get_oauth_tokens, hsid, h, hs, pending_response,
        create_response] at h200
    · cases ha : td.access_token with
      | none =>
        simp [auth_poll_handler, get_oauth_tokens, hsid, h, hs, ha, pending_response,
          create_response] at h200
      | some a =>
        by_cases hne : a = ""
        · simp [auth_poll_handler, get_oauth_tokens, hsid, h, hs, ha, hne,
            pending_response, create_response] at h200
        · simp [auth_poll_handler, get_oauth_tokens, hsid, h, hs, ha, hne,
            create_response]
  · intro td k v hmem
    simp only [pollBody, removeNulls, List.mem_filter] at hmem
    obtain ⟨hmem, hnn⟩ := hmem
    have hv : v ≠ JVal.null := by simpa using hnn
    refine ⟨?_, hv⟩
    simp only [pollBodyRaw, List.mem_cons, List.not_mem_nil, or_false,
      Prod.mk.injEq] at hmem
    rcases hmem with ⟨rfl, _⟩ | ⟨rfl, _⟩ | ⟨rfl, _⟩ | ⟨rfl, _⟩ | ⟨rfl, _⟩ | ⟨rfl, _⟩ <;>
      simp [allowedFields]
  · intro td v
    refine ⟨?_, ?_, ?_, ?_⟩ <;>
      · intro hmem
        simp only [pollBody, removeNulls, List.mem_filter, pollBodyRaw,
          List.mem_cons, List.not_mem_nil, or_false, Prod.mk.injEq] at hmem
        simp_all
  all_goals
    intro td hnone v hmem
  all_goals
    simp only [pollBody, removeNulls, List.mem_filter, pollBodyRaw, hnone,
      List.mem_cons, List.not_mem_nil, or_false, Prod.mk.injEq, Option.map_none] at hmem
  all_goals simp_all

/-- Witness for C5: a READY record with no refresh_token and no scope
produces a payload with exactly the four populated allow-listed keys,
each key allow-listed, with the absent fields omitted. -/
theorem auth_poll_payload_sanitized_witness :
    (auth_poll_handler (some "abc") DynamoOutcome.ok 0
        (store_put emptyStore "abc" (save_item 0 { access_token := some "tok" } 7200))).body
      = pollBody (save_item 0 { access_token := some "tok" } 7200)
    ∧ ("refresh_token", JVal.null) ∉ pollBody (save_item 0 { access_token := some "tok" } 7200)
    ∧ ("status", JVal.s "completed") ∉ pollBody (save_item 0 { access_token := some "tok" } 7200) := by
  have h := auth_poll_payload_sanitized "abc" 0
    (store_put emptyStore "abc" (save_item 0 { access_token := some "tok" } 7200))
    (by decide)
  exact ⟨h.1 (save_item 0 { access_token := some "tok" } 7200) (by rfl) (by decide),
    h.2.2.2.2.1 (save_item 0 { access_token := some "tok" } 7200) rfl (JVal.null),
    (h.2.2.1 (save_item 0 { access_token := some "tok" } 7200) (JVal.s "completed")).1⟩

/-- C1 (divergence evidence): after Initiate stores the PENDING
placeholder for "S1" and Callback runs to success on code "C" with
state "S1", the Callback handler leaves the Session Store exactly as
Initiate left it (it never persists a READY record), and a subsequent
Poll of "S1" returns the 202 pending response, not 200 with the
access token. -/
theorem callback_never_persists_ready :
    (auth_callback_handler (some { code := some "C", state := some "S1" })
        (some "api.example.com") false
        (ExchangeOutcome.ok { token := "tok", refresh_token := some "r", expiry := none })
        200
        (auth_initiate_handler (some "api.example.com") "S1" "URL"
          DynamoOutcome.ok 100 emptyStore).2).2
      = (auth_initiate_handler (some "api.example.com") "S1" "URL"
          DynamoOutcome.ok 100 emptyStore).2
    ∧ auth_poll_handler (some "S1") DynamoOutcome.ok 200
        ((auth_callback_handler (some { code := some "C", state := some "S1" })
          (some "api.example.com") false
          (ExchangeOutcome.ok { token := "tok", refresh_token := some "r", expiry := none })
          200
          (auth_initiate_handler (some "api.example.com") "S1" "URL"
            DynamoOutcome.ok 100 emptyStore).2).2)
      = pending_response
    ∧ pending_response.statusCode = 202
    ∧ pending_response.statusCode ≠ 200 := by
  refine ⟨rfl, by decide, rfl, by decide⟩

/-- C4 (counterexample): Initiate invoked with a valid host while the
placeholder write fails (the storage layer raises) still returns a 200
response that hands back the session id, even though nothing was
stored and `save_oauth_tokens` reported failure — contradicting the
claim that the caller receives a server error and no session id. -/
theorem initiate_save_failure_still_succeeds :
    (auth_initiate_handler (some "api.example.com") "S1" "URL"
        (DynamoOutcome.exc "dynamodb unavailable") 0 emptyStore).1.statusCode = 200
    ∧ ("session_id", JVal.s "S1") ∈
        (auth_initiate_handler (some "api.example.com") "S1" "URL"
          (DynamoOutcome.exc "dynamodb unavailable") 0 emptyStore).1.body
    ∧ (auth_initiate_handler (some "api.example.com") "S1" "URL"
        (DynamoOutcome.exc "dynamodb unavailable") 0 emptyStore).2 "S1" = none
    ∧ (save_oauth_tokens (DynamoOutcome.exc "dynamodb unavailable") 0 emptyStore "S1"
        pendingPlaceholder 3600).1 = false := by
  refine ⟨rfl, by decide, rfl, rfl⟩

/-- C4 (amended): a failed placeholder write is swallowed — for every
storage exception, Initiate with a usable host still returns 200 with
the session id in the body and leaves the store unchanged, its response
being identical to the successful-write response; only a failure before
the write, such as a missing host header, yields the 500 server
error. -/
theorem initiate_ignores_save_failure (h sid url m : String) (now : Int)
    (st : Store) (hh : h ≠ "") :
    (auth_initiate_handler (some h) sid url (DynamoOutcome.exc m) now st).1.statusCode = 200
    ∧ ("session_id", JVal.s sid) ∈
        (auth_initiate_handler (some h) sid url (DynamoOutcome.exc m) now st).1.body
    ∧ (auth_initiate_handler (some h) sid url (DynamoOutcome.exc m) now st).2 = st
    ∧ (auth_initiate_handler (some h) sid url (DynamoOutcome.exc m) now st).1
      = (auth_initiate_handler (some h) sid url DynamoOutcome.ok now st).1
    ∧ (auth_initiate_handler none sid url (DynamoOutcome.exc m) now st).1.statusCode = 500 := by
  refine ⟨?_, ?_, ?_, ?_, rfl⟩ <;>
    simp [auth_initiate_handler, save_oauth_tokens, hh, create_response]

/-- Witness for the amended C4 at a concrete input. -/
theorem initiate_ignores_save_failure_witness :
    (auth_initiate_handler (some "api.example.com") "S1" "URL"
        (DynamoOutcome.exc "boom") 0 emptyStore).1.statusCode = 200
    ∧ (auth_initiate_handler (some "api.example.com") "S1" "URL"
        (DynamoOutcome.exc "boom") 0 emptyStore).2 = emptyStore := by
  have h := initiate_ignores_save_failure "api.example.com" "S1" "URL" "boom" 0
    emptyStore (by decide)
  exact ⟨h.1, h.2.2.1⟩

/-- C6: Callback validates in a fixed order: missing query parameters
(absent or the empty dict) give a 400 "Missing query parameters";
a provider `error` parameter — regardless of any `code` — gives a 400
whose message contains the error string and, when given, the
description; a nonempty query with neither `code` nor `error` gives a
400 "Missing authorization code". -/
theorem callback_validation_order (params? : Option QueryParams)
    (host? : Option String) (acceptJson : Bool) (exch : ExchangeOutcome)
    (now : Int) (st : Store) :
    ((params? = none ∨ params? = some {}) →
      auth_callback_handler params? host? acceptJson exch now st
        = (CbResult.err 400 "Missing query parameters", st))
    ∧ (∀ p e, params? = some p → p.isEmptyDict = false → p.error = some e →
        auth_callback_handler params? host? acceptJson exch now st
          = (CbResult.err 400 (callback_oauth_error_msg e p.error_description), st)
        ∧ (∃ pre post, callback_oauth_error_msg e p.error_description = pre ++ e ++ post)
        ∧ (∀ d, p.error_description = some d →
            ∃ pre2, callback_oauth_error_msg e p.error_description = pre2 ++ d))
    ∧ (∀ p, params? = some p → p.isEmptyDict = false → p.error = none → p.code = none →
        auth_callback_handler params? host? acceptJson exch now st
          = (CbResult.err 400 "Missing authorization code", st)) := by
  refine ⟨?_, ?_, ?_⟩
  · rintro (rfl | rfl)
    · rfl
    · rfl
  · intro p e hp hne herr
    subst hp
    refine ⟨by simp [auth_callback_handler, hne, herr], ?_, ?_⟩
    · cases hd : p.error_description with
      | none => exact ⟨"OAuth error: ", "", by simp [callback_oauth_error_msg, hd]⟩
      | some d =>
        exact ⟨"OAuth error: ", " - " ++ d,
          by simp [callback_oauth_error_msg, hd, String.append_assoc]⟩
    · intro d hd
      exact ⟨"OAuth error: " ++ e ++ " - ",
        by simp [callback_oauth_error_msg, hd, String.append_assoc]⟩
  · intro p hp hne herr hcode
    subst hp
    simp [auth_callback_handler, hne, herr, hcode]

/-- Witness for C6, the spec's own examples: a callback with
`error=access_denied` yields a 400 whose message contains
"access_denied"; one with only a `state` yields 400
"Missing authorization code"; one with no parameters yields 400
"Missing query parameters". -/
theorem callback_validation_order_witness :
    auth_callback_handler (some { error := some "access_denied", state := some "state123" })
        none false (ExchangeOutcome.exc "unused") 0 emptyStore
      = (CbResult.err 400 "OAuth error: access_denied", emptyStore)
    ∧ (∃ pre post, callback_oauth_error_msg "access_denied" none = pre ++ "access_denied" ++ post)
    ∧ auth_callback_handler (some { state := some "state123" })
        none false (ExchangeOutcome.exc "unused") 0 emptyStore
      = (CbResult.err 400 "Missing authorization code", emptyStore)
    ∧ auth_callback_handler none none false (ExchangeOutcome.exc "unused") 0 emptyStore
      = (CbResult.err 400 "Missing query parameters", emptyStore) := by
  have h2 := (callback_validation_order
    (some { error := some "access_denied", state := some "state123" })
    none false (ExchangeOutcome.exc "unused") 0 emptyStore).2.1
    { error := some "access_denied", state := some "state123" } "access_denied"
    rfl (by decide) rfl
  have h3 := (callback_validation_order (some { state := some "state123" })
    none false (ExchangeOutcome.exc "unused") 0 emptyStore).2.2
    { state := some "state123" } rfl (by decide) rfl rfl
  have h1 := (callback_validation_order none
    none false (ExchangeOutcome.exc "unused") 0 emptyStore).1 (Or.inl rfl)
  exact ⟨h2.1, h2.2.1, h3, h1⟩

/-- C10: the storage wrappers are total at their boundary — for every
input and every storage-layer exception, `save_oauth_tokens` and
`delete_oauth_tokens` return `false` with the store untouched and
`get_oauth_tokens` returns `none`; in particular Initiate's HTTP
response is identical whether the placeholder write succeeded or
failed. -/
theorem storage_wrappers_total (m sid sid2 url : String) (now expires_in : Int)
    (st : Store) (tokens : TokenDict) (host? : Option String) :
    save_oauth_tokens (DynamoOutcome.exc m) now st sid tokens expires_in = (false, st)
    ∧ get_oauth_tokens (DynamoOutcome.exc m) now st sid = none
    ∧ delete_oauth_tokens (DynamoOutcome.exc m) st sid = (false, st)
    ∧ (auth_initiate_handler host? sid2 url (DynamoOutcome.exc m) now st).1
      = (auth_initiate_handler host? sid2 url DynamoOutcome.ok now st).1 := by
  refine ⟨rfl, rfl, rfl, ?_⟩
  cases host? with
  | none => rfl
  | some h =>
    by_cases hh : h = "" <;> simp [auth_initiate_handler, save_oauth_tokens, hh]

/-- The message policy C7 attributes to the handler, following the
spec's words: the provider's `error_description` when available, else
the provider's error code, else a generic status-coded message. -/
def claimed_refresh_error_msg (status : Nat) (pb : PBody) : String :=
  match pb with
  | PBody.bad => "Token refresh failed with status " ++ toString status
  | PBody.obj _ _ _ _ _ err desc =>
    match desc with
    | some d => d
    | none =>
      match err with
      | some e => e
      | none => "Token refresh failed with status " ++ toString status

/-- C7 (counterexample): a 503 provider response whose body is a valid
JSON object with neither `error_description` nor `error` yields the
fixed message "Token refresh failed", not the status-coded generic
message the claim prescribes for that case. -/
theorem refresh_error_msg_not_status_coded :
    auth_refresh_handler (ReqBody.parsed (some "rt")) 503
        (PBody.obj none none none none none none none) 0
      = create_error_response 400 "Token refresh failed"
    ∧ refresh_error_msg 503 (PBody.obj none none none none none none none)
      ≠ claimed_refresh_error_msg 503 (PBody.obj none none none none none none none)
    ∧ claimed_refresh_error_msg 503 (PBody.obj none none none none none none none)
      = "Token refresh failed with status 503" := by
  refine ⟨rfl, by decide, rfl⟩

/-- C7 (amended): every non-200 provider response to Refresh yields a
400 client error (never a 500) whose message is the provider's
`error_description` when available, else the provider's error code,
else the fixed "Token refresh failed" when the body is a JSON object,
the status-coded generic message being used exactly when the body
cannot be parsed; and a request body lacking `refresh_token` is
likewise a 400 client error. -/
theorem refresh_provider_error_is_client_error (rt : String) (status : Nat)
    (pb : PBody) (now : Int) (hrt : rt ≠ "") (hs : status ≠ 200) :
    auth_refresh_handler (ReqBody.parsed (some rt)) status pb now
      = create_error_response 400 (refresh_error_msg status pb)
    ∧ (auth_refresh_handler (ReqBody.parsed (some rt)) status pb now).statusCode = 400
    ∧ (∀ a? r? e? t? s? err d, pb = PBody.obj a? r? e? t? s? err (some d) →
        refresh_error_msg status pb = d)
    ∧ (∀ a? r? e? t? s? e, pb = PBody.obj a? r? e? t? s? (some e) none →
        refresh_error_msg status pb = e)
    ∧ (pb = PBody.bad →
        refresh_error_msg status pb = "Token refresh failed with status " ++ toString status)
    ∧ (∀ a? r? e? t? s?, pb = PBody.obj a? r? e? t? s? none none →
        refresh_error_msg status pb = "Token refresh failed")
    ∧ auth_refresh_handler (ReqBody.parsed none) status pb now
      = create_error_response 400 "Missing refresh_token in request body" := by
  have hmain : auth_refresh_handler (ReqBody.parsed (some rt)) status pb now
      = create_error_response 400 (refresh_error_msg status pb) := by
    simp [auth_refresh_handler, hrt, hs]
  refine ⟨hmain, by rw [hmain]; rfl, ?_, ?_, ?_, ?_, rfl⟩
  · rintro a? r? e? t? s? err d rfl
    rfl
  · rintro a? r? e? t? s? e rfl
    rfl
  · rintro rfl
    rfl
  · rintro a? r? e? t? s? rfl
    rfl

/-- Witness for the amended C7, mirroring the repository's own test:
an expired refresh token rejected by the provider with
`error_description` "Token has been expired or revoked." surfaces as a
400 carrying exactly that description. -/
theorem refresh_provider_error_is_client_error_witness :
    auth_refresh_handler (ReqBody.parsed (some "invalid_refresh_token")) 400
        (PBody.obj none none none none none (some "invalid_grant")
          (some "Token has been expired or revoked.")) 0
      = create_error_response 400 "Token has been expired or revoked." := by
  have h := refresh_provider_error_is_client_error "invalid_refresh_token" 400
    (PBody.obj none none none none none (some "invalid_grant")
      (some "Token has been expired or revoked.")) 0 (by decide) (by decide)
  rw [h.1, h.2.2.1 none none none none none (some "invalid_grant")
    "Token has been expired or revoked." rfl]

/-- C8 (counterexample): on the same expiry-fallback path (credentials
without a provider expiry), the JSON-accepting Callback variant returns
a body of only `message`/`access_token`/`refresh_token` — it returns
neither `expires_in` nor `expires_at`, refuting the claim that Callback
on its fallback path returns both. -/
theorem callback_json_variant_omits_expiry :
    auth_callback_handler (some { code := some "C", state := some "S1" })
        (some "api.example.com") true
        (ExchangeOutcome.ok { token := "X", refresh_token := some "r", expiry := none })
        1000 emptyStore
      = (CbResult.jsonOk
          (callback_response_data { token := "X", refresh_token := some "r", expiry := none }),
         emptyStore)
    ∧ lookupKey (callback_response_data { token := "X", refresh_token := some "r", expiry := none })
        "expires_in" = none
    ∧ lookupKey (callback_response_data { token := "X", refresh_token := some "r", expiry := none })
        "expires_at" = none := by
  refine ⟨rfl, rfl, rfl⟩

/-- C8 (amended): given a provider token response with no absolute
expiry field, Refresh returns 200 with a body whose `expires_in` is the
provider's value (defaulting to 3600 when omitted) and whose
`expires_at` is the invocation time plus that value; Callback on its
expiry-fallback path computes the same pair (`expires_in = 3600`,
`expires_at = now + 3600`) but returns it only through the HTML success
result's embedded token dict — the JSON-accepting Callback variant
returns neither field. -/
theorem expires_at_computation (a rt c h : String)
    (rt? tt? sc? state? : Option String) (ei? : Option Int) (now : Int)
    (cred : Credentials) (st : Store)
    (hrt : rt ≠ "") (hc : c ≠ "") (hh : h ≠ "") (hcred : cred.expiry = none) :
    auth_refresh_handler (ReqBody.parsed (some rt)) 200
        (PBody.obj (some a) rt? ei? tt? sc? none none) now
      = create_response 200 (refresh_success_body a rt? ei? tt? sc? now)
    ∧ lookupKey (refresh_success_body a rt? ei? tt? sc? now) "expires_in"
      = some (JVal.i (ei?.getD 3600))
    ∧ lookupKey (refresh_success_body a rt? ei? tt? sc? now) "expires_at"
      = some (JVal.i (now + ei?.getD 3600))
    ∧ auth_callback_handler (some { code := some c, state := state? }) (some h)
        false (ExchangeOutcome.ok cred) now st
      = (CbResult.htmlOk (callback_token_data cred now), st)
    ∧ callback_expiry cred now = (3600, now + 3600)
    ∧ lookupKey (callback_token_data cred now) "expires_in" = some (JVal.i 3600)
    ∧ lookupKey (callback_token_data cred now) "expires_at" = some (JVal.i (now + 3600))
    ∧ auth_callback_handler (some { code := some c, state := state? }) (some h)
        true (ExchangeOutcome.ok cred) now st
      = (CbResult.jsonOk (callback_response_data cred), st)
    ∧ lookupKey (callback_response_data cred) "expires_in" = none
    ∧ lookupKey (callback_response_data cred) "expires_at" = none := by
  refine ⟨by simp [auth_refresh_handler, hrt], ?_, ?_, ?_, ?_, ?_, ?_, ?_, ?_, ?_⟩
  · cases rt? <;> simp [refresh_success_body, lookupKey, List.find?]
  · cases rt? <;> simp [refresh_success_body, lookupKey, List.find?]
  · simp [auth_callback_handler, QueryParams.isEmptyDict, hc, hh]
  · simp [callback_expiry, hcred]
  · simp [callback_token_data, callback_expiry, hcred, lookupKey, List.find?]
  · simp [callback_token_data, callback_expiry, hcred, lookupKey, List.find?]
  · simp [auth_callback_handler, QueryParams.isEmptyDict, hc, hh]
  · simp [callback_response_data, lookupKey, List.find?]
  · simp [callback_response_data, lookupKey, List.find?]

/-- Witness for the amended C8, the spec's own example: provider
response `{"access_token": "X", "expires_in": 3600}` at invocation time
1000 yields `expires_in = 3600` and `expires_at = 4600` for Refresh and
for the Callback fallback's HTML token dict, while the JSON Callback
variant carries no `expires_at`. -/
theorem expires_at_computation_witness :
    lookupKey (refresh_success_body "X" none (some 3600) none none 1000) "expires_in"
      = some (JVal.i 3600)
    ∧ lookupKey (refresh_success_body "X" none (some 3600) none none 1000) "expires_at"
      = some (JVal.i 4600)
    ∧ lookupKey (callback_token_data { token := "X", refresh_token := none, expiry := none } 1000)
        "expires_at" = some (JVal.i 4600)
    ∧ lookupKey (callback_response_data { token := "X", refresh_token := none, expiry := none })
        "expires_at" = none := by
  have h := expires_at_computation "X" "rt" "C" "api.example.com" none none none none
    (some 3600) 1000 { token := "X", refresh_token := none, expiry := none }
    emptyStore (by decide) (by decide) (by decide) rfl
  exact ⟨h.2.1, h.2.2.1, h.2.2.2.2.2.2.1, h.2.2.2.2.2.2.2.2.2⟩

/-- C9: the Refresh success payload contains a `refresh_token` key
exactly when the provider's response contained one, and then carries
the provider's value — the caller's old token is never substituted. -/
theorem refresh_rotation (a rt : String) (rt? tt? sc? : Option String)
    (ei? : Option Int) (now : Int) (hrt : rt ≠ "") :
    auth_refresh_handler (ReqBody.parsed (some rt)) 200
        (PBody.obj (some a) rt? ei? tt? sc? none none) now
      = create_response 200 (refresh_success_body a rt? ei? tt? sc? now)
    ∧ ((∃ v, lookupKey (refresh_success_body a rt? ei? tt? sc? now) "refresh_token" = some v)
        ↔ rt?.isSome = true)
    ∧ (∀ r, rt? = some r →
        lookupKey (refresh_success_body a rt? ei? tt? sc? now) "refresh_token"
          = some (JVal.s r))
    ∧ (rt? = none →
        lookupKey (refresh_success_body a rt? ei? tt? sc? now) "refresh_token" = none) := by
  refine ⟨by simp [auth_refresh_handler, hrt], ?_, ?_, ?_⟩
  · cases rt? <;> simp [refresh_success_body, lookupKey, List.find?]
  · rintro r rfl
    simp [refresh_success_body, lookupKey, List.find?]
  · rintro rfl
    simp [refresh_success_body, lookupKey, List.find?]

/-- Witness for C9: with a provider response rotating to
"new_refresh_token" the payload carries it; with a provider response
omitting the key the payload has no `refresh_token` key, even though
the caller supplied an old one. -/
theorem refresh_rotation_witness :
    lookupKey (refresh_success_body "X" (some "new_refresh_token") (some 3600) none none 0)
        "refresh_token" = some (JVal.s "new_refresh_token")
    ∧ lookupKey (refresh_success_body "X" none (some 3600) none none 0) "refresh_token"
      = none := by
  exact ⟨(refresh_rotation "X" "old_refresh_token" (some "new_refresh_token") none none
      (some 3600) 0 (by decide)).2.2.1 "new_refresh_token" rfl,
    (refresh_rotation "X" "old_refresh_token" none none none
      (some 3600) 0 (by decide)).2.2.2 rfl⟩

end Colino
